import Mathlib

/-
Verification of the agents-assembly translator (madpeh/agents-assembly-translator).

The development shallowly embeds, in Lean, the parts of the Python source that
the claims under examination talk about:

  * `src/aasm/parsing/state.py`   — the parser `State`, its end-of-input check,
    its message dictionary, its tokenizer and its panic mechanism;
  * `src/parsing/parse.py`        — the `parse_lines` dispatch loop (the
    per-opcode handlers live in `parsing/op/*`, which is not part of the
    sources; the loop is therefore parametrised over the handler);
  * `src/aasm/generating/python_graph.py` — the text emitter for the graph
    code, and, separately, the runtime semantics of the code this emitter
    produces (statistical and matrix graph synthesis);
  * `src/aasm/generating/python_spade.py` and `src/generating/spade.py` —
    the translation of the `Divide` and `Subset` instructions; for these we
    embed the runtime semantics of the emitted statements.

Python integers are modelled as `ℤ`, Python floats as `ℚ` (the claims only
exercise exact decimal values), Python's `round` as round-half-to-even
(`pythonRound`), Python dicts as insertion-ordered association lists, and
Python object identity — where a claim is about aliasing or deep copies — as
references into an explicit heap (`Heap`).  Randomness in the emitted code
(`random.sample`, distribution draws) is runtime behaviour of the *emitted*
program; it is modelled by parameters (`sampler`, `draws`) constrained only by
what the Python standard library guarantees (`ValidSampler`).
-/

namespace AASM

/-! ### Python primitives -/

/-- Python's built-in `round` on an exact rational: round half to even
(banker's rounding), returning an integer.  With `f = ⌊q⌋` the fractional
part is `(q.num - f * q.den) / q.den`, so comparing it with `1/2` amounts to
comparing `2 * (q.num - f * q.den)` with `q.den` (the denominator is
positive). -/
def pythonRound (q : ℚ) : ℤ :=
  let f : ℤ := q.floor
  let r : ℤ := q.num - f * q.den
  if 2 * r < q.den then f
  else if (q.den : ℤ) < 2 * r then f + 1
  else if f % 2 = 0 then f else f + 1

/-- Insertion-ordered dictionary update, as for a Python `dict`:
overwriting an existing key keeps its position, a new key is appended. -/
def dictInsert {κ α : Type} [DecidableEq κ] (d : List (κ × α)) (k : κ) (v : α) :
    List (κ × α) :=
  if d.any (fun p => p.1 = k) then
    d.map (fun p => if p.1 = k then (k, v) else p)
  else d ++ [(k, v)]

/-- Dictionary lookup (`d[k]` when present). -/
def dictGet? {κ α : Type} [DecidableEq κ] (d : List (κ × α)) (k : κ) : Option α :=
  (d.find? (fun p => p.1 = k)).map Prod.snd

/-- A heap of Python objects of one class: cell `r` of `cells` is the object
referenced by `r`.  Used where a claim is about object identity
(deep copies, aliasing). -/
structure Heap (α : Type) where
  cells : List α
deriving DecidableEq, Repr

/-- Dereference (`d` is the out-of-range default; claims only dereference
valid references). -/
def Heap.get {α : Type} (h : Heap α) (r : ℕ) (d : α) : α :=
  h.cells.getD r d

/-- In-place mutation of the object referenced by `r`. -/
def Heap.set {α : Type} (h : Heap α) (r : ℕ) (v : α) : Heap α :=
  ⟨h.cells.set r v⟩

/-- Allocate one fresh object, returning the new heap and its reference. -/
def Heap.alloc {α : Type} (h : Heap α) (v : α) : Heap α × ℕ :=
  (⟨h.cells ++ [v]⟩, h.cells.length)

/-- Allocate a list of fresh objects (one per value, in order). -/
def Heap.allocList {α : Type} (h : Heap α) (vs : List α) : Heap α × List ℕ :=
  (⟨h.cells ++ vs⟩, List.range' h.cells.length vs.length)

/-! ### Intermediate representation

The IR classes live in `aasm/intermediate/*`, which is not among the sources;
the structures below are modelled from the spec's data model (§3) and from how
the generators in `python_graph.py` / `python_spade.py` access their fields. -/

/-- Modelled from the spec: a message template, keyed by (type, performative),
carrying an ordered set of float-valued body field names
(`aasm/intermediate/message.py` is not among the sources). -/
structure Message where
  type : String
  performative : String
  floatParams : List String
deriving DecidableEq, Repr

/-- Modelled from the spec: the parser-level agent entity; only its name is
relevant to the claims (`aasm/intermediate/agent.py` is not among the
sources). -/
structure AgentIR where
  name : String
deriving DecidableEq, Repr

/-- Modelled from the spec: per-agent-type population specification of a
statistical graph — an absolute count or a percentage of the total
(`aasm/intermediate/graph.py` is not among the sources). -/
inductive AgentAmount
  | constant (value : ℤ)
  | percent (value : ℚ)
deriving DecidableEq, Repr

/-- Modelled from the spec: per-agent-type connection-count specification of a
statistical graph — absolute, or drawn from a distribution at generation
time. -/
inductive ConnectionAmount
  | constant (value : ℤ)
  | distNormal (mean stdDev : ℚ)
  | distExp (lambda : ℚ)
  | distUniform (a b : ℚ)
deriving DecidableEq, Repr

/-- One agent type of a statistical graph. -/
structure StatisticalAgent where
  name : String
  amount : AgentAmount
  connections : ConnectionAmount
deriving DecidableEq, Repr

/-- Modelled from the spec: a statistical graph — target size plus the agent
types in declaration order (the Python `graph.agents` dict, iterated in
insertion order). -/
structure StatisticalGraph where
  agents : List StatisticalAgent
  size : ℚ
deriving DecidableEq, Repr

/-- A 0/1 adjacency row of a matrix graph (`agent.adj_row.row`). -/
structure AdjRow where
  row : List ℤ
deriving DecidableEq, Repr

/-- One agent type of a matrix graph. -/
structure MatrixAgent where
  name : String
  adjRow : AdjRow
deriving DecidableEq, Repr

/-- Modelled from the spec: a matrix graph — agent types with adjacency rows
and an optional replication ("scale") factor; `scale = none` models
`is_scale_defined()` returning false. -/
structure MatrixGraph where
  agents : List MatrixAgent
  scale : Option ℤ
deriving DecidableEq, Repr

/-- The graph IR variant (`aasm/intermediate/graph.py`). -/
inductive Graph
  | statistical (g : StatisticalGraph)
  | matrix (g : MatrixGraph)
deriving DecidableEq, Repr

/-! ### Parser state (`src/aasm/parsing/state.py`) -/

/-- A raised Python exception, distinguishing the translator's positioned
diagnostic (`PanicException`, raised by `State.panic`) from a generic
`Exception`. -/
inductive PyError
  | panicExc (place reason suggestion : String)
  | genericExc (msg : String)
deriving DecidableEq, Repr

/-- The result of parsing (`ParsedData` in `state.py`): agents and messages in
declaration order plus the optional graph. -/
structure ParsedData where
  agents : List AgentIR
  messages : List Message
  graph : Option Graph
deriving DecidableEq, Repr

/-- The parser state (`State.__init__` in `state.py`): the preprocessed lines,
the current line number, the five nesting flags, and the accumulated
entities.  `originalLineOf` stands for
`preprocessor.get_original_line_number` (the preprocessor is not among the
sources). -/
structure State where
  lines : List String
  lineNum : ℕ
  originalLineOf : ℕ → ℕ × String
  inAgent : Bool
  inMessage : Bool
  inBehaviour : Bool
  inAction : Bool
  inGraph : Bool
  agents : List (String × AgentIR)
  messages : List ((String × String) × Message)
  graph : Option Graph

/-- The fresh state built by `State.__init__` from the preprocessed lines and
the preprocessor's line map: all flags false, no entities. -/
def initialState (lines : List String) (originalLineOf : ℕ → ℕ × String) : State :=
  { lines := lines
    lineNum := 0
    originalLineOf := originalLineOf
    inAgent := false
    inMessage := false
    inBehaviour := false
    inAction := false
    inGraph := false
    agents := []
    messages := []
    graph := none }

/-- The location string `State.panic` builds (state.py lines 130-134). -/
def State.panicPlace (s : State) : String :=
  let p := s.originalLineOf s.lineNum
  if p.2 ≠ "" then
    "Error in preprocessor directive: " ++ p.2 ++ ", declared at line " ++ toString p.1
  else
    "Error in line " ++ toString p.1 ++ ": " ++ ((s.lines.getD (s.lineNum - 1) "").trim)

/-- `State.panic`: raise the positioned diagnostic (`PanicException`). -/
def State.panic (s : State) (reason : String) (suggestion : String) : PyError :=
  .panicExc s.panicPlace reason suggestion

/-- `State.add_agent`: `self.agents[agent.name] = agent`. -/
def State.addAgent (s : State) (a : AgentIR) : State :=
  { s with agents := dictInsert s.agents a.name a }

/-- `State.add_message`: `self.messages[(message.type, message.performative)] = message`. -/
def State.addMessage (s : State) (m : Message) : State :=
  { s with messages := dictInsert s.messages (m.type, m.performative) m }

/-- `State.add_graph`: `self.graph = graph`. -/
def State.addGraph (s : State) (g : Graph) : State :=
  { s with graph := some g }

/-- `State.message_exists`. -/
def State.messageExists (s : State) (ty perf : String) : Bool :=
  (dictGet? s.messages (ty, perf)).isSome

/-- `State.get_message_instance` at the value level: the data of the stored
message (the deep copy returns an object with this data; object identity is
treated separately in the heap model below). -/
def State.getMessageInstance (s : State) (ty perf : String) : Option Message :=
  dictGet? s.messages (ty, perf)

/-- `State.last_graph` (state.py lines 58-62): raises a plain
`Exception("Graph is not defined")` — not a positioned diagnostic — when no
graph was declared, and returns the graph otherwise. -/
def State.lastGraph (s : State) : Except PyError Graph :=
  match s.graph with
  | none => .error (.genericExc "Graph is not defined")
  | some g => .ok g

/-- `State.verify_end_state` (state.py lines 109-115): the end-of-input
structural check, an `if/elif` chain over the still-open contexts. -/
def State.verifyEndState (s : State) : Except PyError Unit :=
  if s.inAgent then .error (s.panic "Missing EAGENT" "")
  else if s.inMessage then .error (s.panic "Missing EMESSAGE" "")
  else if s.inGraph then .error (s.panic "Missing EGRAPH" "")
  else .ok ()

/-- `State.get_parsed_data` (state.py lines 117-124): run the end-of-input
check, then hand the accumulated entities over as a `ParsedData`. -/
def State.getParsedData (s : State) : Except PyError ParsedData :=
  match s.verifyEndState with
  | .error e => .error e
  | .ok _ =>
    .ok { agents := s.agents.map Prod.snd
          messages := s.messages.map Prod.snd
          graph := s.graph }

/-- One line of `State.tokens_from_lines` (state.py lines 85-92): strip the
comment at the first `#`, treat commas as spaces, split on whitespace
dropping empty tokens, and upper-case the opcode token. -/
def tokenizeLine (line : String) : List String :=
  let uncommented := (line.splitOn "#").headD ""
  let toks := ((uncommented.replace "," " ").split Char.isWhitespace).filter
    (fun t => t ≠ "")
  match toks with
  | [] => []
  | t :: ts => t.toUpper :: ts

/-- `State.tokens_from_lines`: the (1-based line number, tokens) pairs of the
non-blank lines; `line_num` is advanced for every line, so the number paired
with a token list is the position of its line. -/
def tokenLines (lines : List String) : List (ℕ × List String) :=
  (lines.enum.map (fun p => (p.1 + 1, tokenizeLine p.2))).filter
    (fun p => p.2 ≠ [])

/-- The dispatch loop of `parse_lines` (src/parsing/parse.py lines 30-112):
fold the per-opcode handler over the token stream.  The handlers themselves
live in `parsing/op/*`, which is not among the sources, so the loop is
parametrised over the handler `step`. -/
def runParse (step : State → List String → Except PyError State) :
    State → List (ℕ × List String) → Except PyError State
  | s, [] => .ok s
  | s, (ln, toks) :: rest =>
    match step { s with lineNum := ln } toks with
    | .error e => .error e
    | .ok s' => runParse step s' rest

/-- `parse_lines`: build the fresh state, run the dispatch loop over the
tokenized lines, then `state.get_parsed_data()`. -/
def parseLines (step : State → List String → Except PyError State)
    (lines : List String) (originalLineOf : ℕ → ℕ × String) :
    Except PyError ParsedData :=
  match runParse step (initialState lines originalLineOf) (tokenLines lines) with
  | .error e => .error e
  | .ok s => s.getParsedData

/-! ### Code emitter (`python_code.py` helpers, text level)

`aasm/generating/python_code.py` is not among the sources; its helpers are
modelled from the identical ones of `src/generating/spade.py` (lines 41-55):
`add_line` appends `indent_size * indent` spaces, the line, and a newline;
`indent_right`/`indent_left` move the cursor.  (Python would prepend an empty
string for a negative indent; `ℕ` subtraction truncates to the same
effect.) -/

/-- The emitter state: indent size, current indent level, accumulated lines. -/
structure Emitter where
  indentSize : ℕ
  indent : ℕ
  codeLines : List String
deriving DecidableEq, Repr

/-- `add_line`. -/
def Emitter.addLine (c : Emitter) (line : String) : Emitter :=
  { c with codeLines :=
      c.codeLines ++ [String.mk (List.replicate (c.indentSize * c.indent) ' ') ++ line ++ "\n"] }

/-- `indent_right`. -/
def Emitter.indentRight (c : Emitter) : Emitter :=
  { c with indent := c.indent + 1 }

/-- `indent_left`. -/
def Emitter.indentLeft (c : Emitter) : Emitter :=
  { c with indent := c.indent - 1 }

/-- `add_newline`. -/
def Emitter.addNewline (c : Emitter) : Emitter :=
  c.addLine ""

/-- `add_newlines`. -/
def Emitter.addNewlines (c : Emitter) : ℕ → Emitter
  | 0 => c
  | n + 1 => c.addNewline.addNewlines n

/-! ### Graph code generation (`src/aasm/generating/python_graph.py`)

Numeric IR values interpolated into emitted lines are rendered with
`toString`; the claims do not depend on numeral formatting. -/

/-- The compile-time adjacency-index computation of `add_matrix_graph`
(python_graph.py lines 143-144): `compress(range(len(row)), [x == 1 for x in
row])`, i.e. the positions of the row whose entry equals 1, in order. -/
def adjIndices (a : MatrixAgent) : List ℕ :=
  (List.range a.adjRow.row.length).filter (fun j => a.adjRow.row.getD j 0 = 1)

/-- Render a Python list literal of ints, as `f"{adj_indx}"` does. -/
def renderIndices (l : List ℕ) : String :=
  "[" ++ String.intercalate ", " (l.map toString) ++ "]"

/-- `PythonGraph.add_required_imports`. -/
def addGraphImports (e : Emitter) : Emitter :=
  ((e.addLine "import random").addLine "import uuid").addLine "import numpy"

/-- The per-agent-type count line of `add_statistical_graph`
(python_graph.py lines 56-69). -/
def addStatAgentCount (size : ℚ) (e : Emitter) (a : StatisticalAgent) : Emitter :=
  match a.amount with
  | .constant v =>
    e.addLine ("_num_" ++ a.name ++ " = " ++ toString v)
  | .percent v =>
    e.addLine ("_num_" ++ a.name ++ " = round(" ++ toString v ++ " / 100 * " ++
      toString size ++ ")")

/-- The per-agent-type instance loop of `add_statistical_graph`
(python_graph.py lines 78-120). -/
def addStatAgentLoop (e : Emitter) (a : StatisticalAgent) : Emitter :=
  let e : Emitter := e.addLine ("for _ in range(_num_" ++ a.name ++ "):")
  let e : Emitter := e.indentRight
  let e : Emitter := match a.connections with
    | .constant v =>
      e.addLine ("num_connections = " ++ toString v)
    | .distNormal mean stdDev =>
      e.addLine ("num_connections = int(numpy.random.normal(" ++ toString mean ++
        ", " ++ toString stdDev ++ "))")
    | .distExp lam =>
      e.addLine ("num_connections = int(numpy.random.exponential(1 / " ++
        toString lam ++ "))")
    | .distUniform a' b =>
      e.addLine ("num_connections = int(random.uniform(" ++ toString a' ++ ", " ++
        toString b ++ "))")
  let e : Emitter := e.addLine "num_connections = max(min(num_connections, len(jids) - 1), 0)"
  let e : Emitter := e.addLine "jid = jids[next_agent_idx]"
  let e : Emitter := (e.addLine "agents.append(\x7b").indentRight
  let e : Emitter := e.addLine "\"jid\": jid,"
  let e : Emitter := e.addLine ("\"type\": \"" ++ a.name ++ "\",")
  let e : Emitter := e.addLine "\"connections\": random.sample([other_jid for other_jid in jids if other_jid != jid], num_connections),"
  let e : Emitter := (e.indentLeft.addLine "\x7d)").addLine "next_agent_idx += 1"
  e.indentLeft

/-- `PythonGraph.add_statistical_graph` (python_graph.py lines 46-123). -/
def addStatisticalGraph (e : Emitter) (g : StatisticalGraph) : Emitter :=
  let e : Emitter := (e.addLine "def generate_graph_structure(domain):").indentRight
  if g.agents.isEmpty then
    (e.addLine "return []").indentLeft
  else
    let e : Emitter := g.agents.foldl (addStatAgentCount g.size) e
    let numExprs := g.agents.map (fun a => "_num_" ++ a.name)
    let e : Emitter := e.addLine ("num_agents = " ++ String.intercalate " + " numExprs)
    let e : Emitter := e.addLine "random_id = str(uuid.uuid4())[:5]"
    let e : Emitter := e.addLine "jids = [f\"\x7bi\x7d_\x7brandom_id\x7d@\x7bdomain\x7d\" for i in range(num_agents)]"
    let e : Emitter := (e.addLine "agents = []").addLine "next_agent_idx = 0"
    let e : Emitter := g.agents.foldl addStatAgentLoop e
    (e.addLine "return agents").indentLeft

/-- The name interpolated as `{agent.name}` on python_graph.py line 169: the
loop variable of `for agent in graph.agents:` (lines 142-145) after that
loop finished, i.e. the LAST agent type of the graph ("" cannot occur: the
empty-agent case returns earlier). -/
def matrixEmittedTypeName (g : MatrixGraph) : String :=
  match g.agents.getLast? with
  | some a => a.name
  | none => ""

/-- `PythonGraph.add_matrix_graph` (python_graph.py lines 125-177). -/
def addMatrixGraph (e : Emitter) (g : MatrixGraph) : Emitter :=
  let e : Emitter := (e.addLine "def generate_graph_structure(domain):").indentRight
  if g.agents.isEmpty then
    (e.addLine "return []").indentLeft
  else
    let e : Emitter := match g.scale with
      | some s => e.addLine ("scale_factor = " ++ toString s)
      | none => e.addLine "scale_factor = 1"
    let e : Emitter := e.addLine ("n_agent_types = " ++ toString g.agents.length)
    let e : Emitter := e.addLine "graph_size = scale_factor * n_agent_types"
    let e : Emitter := e.addLine "random_id = str(uuid.uuid4())[:5]"
    let e : Emitter := e.addLine "jids = [f\"\x7bi\x7d_\x7brandom_id\x7d@\x7bdomain\x7d\" for i in range(graph_size)]"
    let e : Emitter := (e.addLine "agents = []").addLine "indx_sets = []"
    let e : Emitter := g.agents.foldl
      (fun e a => e.addLine ("indx_sets.append(" ++ renderIndices (adjIndices a) ++ ")")) e
    let e : Emitter := (e.addLine "for base_agent_index in range(n_agent_types):").indentRight
    let e : Emitter := e.addLine "indices = indx_sets[base_agent_index]"
    let e : Emitter := (e.addLine "for shift in range(1, scale_factor):").indentRight
    let e : Emitter := (e.addLine "indices.append((base_agent_index + shift * n_agent_types) % graph_size)").indentLeft
    let e : Emitter := (e.addLine "for shift in range(scale_factor):").indentRight
    let e : Emitter := e.addLine "jid = jids[base_agent_index + shift * n_agent_types]"
    let e : Emitter := e.addLine "connections = []"
    let e : Emitter := (e.addLine "for i in indices:").indentRight
    let e : Emitter := (e.addLine "connections.append(jids[(i + shift * n_agent_types) % graph_size])").indentLeft
    let e : Emitter := (e.addLine "agents.append(\x7b").indentRight
    let e : Emitter := e.addLine "\"jid\": jid,"
    let e : Emitter := e.addLine ("\"type\": \"" ++ matrixEmittedTypeName g ++ "\",")
    let e : Emitter := ((e.addLine "\"connections\": connections,").indentLeft.addLine "\x7d)").indentLeft
    ((e.indentLeft.addLine "return agents").indentLeft)

/-- `PythonGraph.generate_graph` (python_graph.py lines 35-44). -/
def generateGraphEmit (e : Emitter) : Graph → Emitter
  | .statistical g => addStatisticalGraph e g
  | .matrix g => addMatrixGraph e g

/-- `PythonGraph.__init__` (python_graph.py lines 22-28): nothing at all is
emitted when the parsed program declared no graph; otherwise imports, two
blank lines, and the graph function. -/
def pythonGraphCodeLines (indentSize : ℕ) (graph : Option Graph) : List String :=
  match graph with
  | none => (⟨indentSize, 0, []⟩ : Emitter).codeLines
  | some g => (generateGraphEmit ((addGraphImports ⟨indentSize, 0, []⟩).addNewlines 2) g).codeLines

/-- `PythonSpadeCode.add_required_imports` (python_spade.py lines 76-83). -/
def addSpadeImports (e : Emitter) : Emitter :=
  ["import copy", "import datetime", "import random", "import httpx",
   "import numpy", "import orjson", "import spade"].foldl Emitter.addLine e

/-- `PythonSpadeCode.__init__` (python_spade.py lines 67-74): nothing is
emitted when there are no agents; otherwise imports then, per agent, two
blank lines and the agent class.  The per-agent emitter `generate_agent` is
a parameter (its body does not bear on the claims under examination). -/
def pythonSpadeCodeLines (indentSize : ℕ) (genAgent : Emitter → AgentIR → Emitter)
    (agents : List AgentIR) : List String :=
  if agents.isEmpty then (⟨indentSize, 0, []⟩ : Emitter).codeLines
  else (agents.foldl (fun e a => genAgent (e.addNewlines 2) a)
    (addSpadeImports ⟨indentSize, 0, []⟩)).codeLines

/-- The output pair of `get_spade_code` (`Code` in `aasm/generating/code.py`):
agent code and graph code. -/
structure Code where
  spadeCode : List String
  graphCode : List String
deriving DecidableEq, Repr

/-- `get_spade_code` (python_spade.py lines 37-64): parse, then pair the agent
code with the graph code.  `preprocess` stands for the `Preprocessor` run
inside `State.__init__` (not among the sources): it returns the processed
lines and the original-line map. -/
def getSpadeCode (step : State → List String → Except PyError State)
    (genAgent : Emitter → AgentIR → Emitter)
    (preprocess : List String → List String × (ℕ → ℕ × String))
    (aasmLines : List String) (indentSize : ℕ) : Except PyError Code :=
  let p := preprocess aasmLines
  match parseLines step p.1 p.2 with
  | .error e => .error e
  | .ok pd =>
    .ok { spadeCode := pythonSpadeCodeLines indentSize genAgent pd.agents
          graphCode := pythonGraphCodeLines indentSize pd.graph }

/-! ### Runtime semantics of the emitted statistical-graph code

The emitted `generate_graph_structure` (python_graph.py lines 46-123) runs at
the target program's run time.  Its semantics is embedded below, line by line
along the emitter: identifiers `f"{i}_{random_id}@{domain}"` are represented
by their index `i` (the string is injective in `i` for a fixed suffix), and
the run-time randomness is a parameter: `draws idx` is the value of
`num_connections` drawn for the `idx`-th instance before clamping
(`int(numpy.random.normal(...))` etc.), and `sampler pool k` is
`random.sample(pool, k)`. -/

/-- A record of the generated structure:
`{"jid": ..., "type": ..., "connections": ...}`. -/
structure GraphRecord where
  jid : ℕ
  type : String
  connections : List ℕ
deriving DecidableEq, Repr

/-- What the Python standard library guarantees of `random.sample(pool, k)`
for `k ≤ len(pool)`: `k` elements, all drawn from `pool`, pairwise distinct
when `pool` has no duplicates. -/
def ValidSampler (sampler : List ℕ → ℕ → List ℕ) : Prop :=
  ∀ pool k, k ≤ pool.length →
    (sampler pool k).length = k ∧
    (∀ x ∈ sampler pool k, x ∈ pool) ∧
    (pool.Nodup → (sampler pool k).Nodup)

/-- A trivial valid sampler (used to instantiate witnesses): the first `k`
elements of the pool. -/
def takeSampler (pool : List ℕ) (k : ℕ) : List ℕ :=
  pool.take k

/-- The per-type count `_num_{name}` (python_graph.py lines 56-69): the
constant itself, or `round(value / 100 * size)`. -/
def numFor (size : ℚ) (a : StatisticalAgent) : ℤ :=
  match a.amount with
  | .constant v => v
  | .percent p => pythonRound (p / 100 * size)

/-- `num_agents = _num_A + _num_B + ...` (python_graph.py line 73). -/
def numAgents (g : StatisticalGraph) : ℤ :=
  (g.agents.map (numFor g.size)).sum

/-- `jids = [... for i in range(num_agents)]` (python_graph.py line 75),
identifiers represented by their index. -/
def statJids (g : StatisticalGraph) : List ℕ :=
  List.range (numAgents g).toNat

/-- `num_connections = max(min(num_connections, len(jids) - 1), 0)`
(python_graph.py line 107). -/
def clampConnections (nc : ℤ) (jidsLen : ℕ) : ℤ :=
  max (min nc ((jidsLen : ℤ) - 1)) 0

/-- The value of `num_connections` drawn at python_graph.py lines 82-104: the
declared constant, or — for the three distributions — the run-time draw
`draw` (already truncated by `int(...)`). -/
def drawnConnections (draw : ℤ) (c : ConnectionAmount) : ℤ :=
  match c with
  | .constant v => v
  | .distNormal _ _ => draw
  | .distExp _ => draw
  | .distUniform _ _ => draw

/-- The loop body for one agent instance (python_graph.py lines 106-119):
read `jids[next_agent_idx]` (`none` models Python's `IndexError`), clamp the
drawn connection count, and sample that many other identifiers from
`[other_jid for other_jid in jids if other_jid != jid]`. -/
def statInstance (sampler : List ℕ → ℕ → List ℕ) (jids : List ℕ)
    (a : StatisticalAgent) (nc : ℤ) (idx : ℕ) : Option GraphRecord :=
  match jids.get? idx with
  | none => none
  | some jid =>
    let k := clampConnections nc jids.length
    some { jid := jid
           type := a.name
           connections := sampler (jids.filter (fun o => o ≠ jid)) k.toNat }

/-- The instance sequence of the nested loops (python_graph.py lines 78-79):
for each agent type in declaration order, `_num` copies; the global position
in this sequence is `next_agent_idx`. -/
def statInstances (g : StatisticalGraph) : List StatisticalAgent :=
  g.agents.flatMap (fun a => List.replicate (numFor g.size a).toNat a)

/-- Run an optional-valued function over a list, failing as soon as one
element fails — the shape of a Python loop that can raise. -/
def mapOrNone {α β : Type} (f : α → Option β) : List α → Option (List β)
  | [] => some []
  | x :: xs =>
    match f x, mapOrNone f xs with
    | some y, some ys => some (y :: ys)
    | _, _ => none

/-- The run of the emitted statistical `generate_graph_structure`
(python_graph.py lines 46-123): `[]` when no agent types were declared,
otherwise one record per instance in order. -/
def statGenerate (sampler : List ℕ → ℕ → List ℕ) (draws : ℕ → ℤ)
    (g : StatisticalGraph) : Option (List GraphRecord) :=
  if g.agents.isEmpty then some []
  else
    mapOrNone
      (fun p => statInstance sampler (statJids g) p.2
        (drawnConnections (draws p.1) p.2.connections) p.1)
      (statInstances g).enum

/-! ### Runtime semantics of the emitted matrix-graph code

The emitted matrix `generate_graph_structure` (python_graph.py lines 125-177)
is deterministic.  Identifiers are again represented by their index into
`jids`. -/

/-- `scale_factor` (python_graph.py lines 132-135): the declared scale, or 1
when `is_scale_defined()` is false. -/
def matrixScaleFactor (g : MatrixGraph) : ℤ :=
  match g.scale with
  | some s => s
  | none => 1

/-- The default used to model Python's indexing where the index is in range. -/
def defaultMatrixAgent : MatrixAgent :=
  { name := "", adjRow := { row := [] } }

/-- The contents of `indices` for one `base_agent_index` (python_graph.py
lines 149-154): the compile-time adjacency positions `indx_sets[base]`,
extended at run time with `(base + shift * n_agent_types) % graph_size` for
`shift in range(1, scale_factor)`. -/
def matrixIndicesForBase (g : MatrixGraph) (base : ℕ) : List ℕ :=
  let n := g.agents.length
  let S := (matrixScaleFactor g).toNat
  let graphSize := S * n
  adjIndices (g.agents.getD base defaultMatrixAgent) ++
    (List.range' 1 (S - 1)).map (fun shift => (base + shift * n) % graphSize)

/-- The run of the emitted matrix `generate_graph_structure` (python_graph.py
lines 125-177): for each base agent index and each shard `shift`, a record
with `jid = jids[base + shift * n]` and connections
`jids[(i + shift * n) % graph_size]` for `i` in `indices`.  The `"type"`
field is the compile-time constant `matrixEmittedTypeName g` — the leaked
loop variable of python_graph.py line 169 — for every record. -/
def matrixGenerate (g : MatrixGraph) : List GraphRecord :=
  if g.agents.isEmpty then []
  else
    let n := g.agents.length
    let S := (matrixScaleFactor g).toNat
    let graphSize := S * n
    (List.range n).flatMap (fun base =>
      let indices := matrixIndicesForBase g base
      (List.range S).map (fun shift =>
        { jid := base + shift * n
          type := matrixEmittedTypeName g
          connections := indices.map (fun i => (i + shift * n) % graphSize) }))

/-! ### Runtime semantics of the emitted divide instruction

`PythonSpadeCode.add_block` translates `Divide` into the two lines
`if {arg2} == 0: return` and `{arg1} /= {arg2}` (python_spade.py lines
522-524); the legacy `SpadeCode.add_block` translates it into the single line
`{arg1} /= {arg2}` (src/generating/spade.py lines 204-205).  The semantics of
these emitted statements inside the enclosing action is embedded below over a
numeric store. -/

/-- An argument expression as emitted by `parse_arg`: a literal or a (possibly
qualified) variable. -/
inductive PyExpr
  | lit (q : ℚ)
  | var (name : String)
deriving DecidableEq, Repr

/-- Evaluate an argument in a store. -/
def evalExpr (σ : String → ℚ) : PyExpr → ℚ
  | .lit q => q
  | .var x => σ x

/-- Point update of a store. -/
def updateVar (σ : String → ℚ) (x : String) (v : ℚ) : String → ℚ :=
  fun y => if y = x then v else σ y

/-- The emitted statements the divide translation consists of. -/
inductive ActStmt
  | guardReturnIfZero (e : PyExpr)
  | divAssign (target : String) (e : PyExpr)
deriving DecidableEq, Repr

/-- The outcome of running an action-body fragment: fall through with a store,
`return` from the enclosing action with a store, or a raised
`ZeroDivisionError`. -/
inductive ActOutcome
  | normal (σ : String → ℚ)
  | earlyReturn (σ : String → ℚ)
  | zeroDivError

/-- Run a fragment of emitted action-body statements: `if e == 0: return`
returns from the action; `x /= e` divides, raising `ZeroDivisionError` when
`e` evaluates to zero (Python float division by zero on these operands). -/
def runActStmts (σ : String → ℚ) : List ActStmt → ActOutcome
  | [] => .normal σ
  | .guardReturnIfZero e :: rest =>
    if evalExpr σ e = 0 then .earlyReturn σ else runActStmts σ rest
  | .divAssign x e :: rest =>
    if evalExpr σ e = 0 then .zeroDivError
    else runActStmts (updateVar σ x (σ x / evalExpr σ e)) rest

/-- The guarded divide emitted by `PythonSpadeCode.add_block`
(python_spade.py lines 522-524). -/
def pythonSpadeDivideStmts (arg1 : String) (arg2 : PyExpr) : List ActStmt :=
  [.guardReturnIfZero arg2, .divAssign arg1 arg2]

/-- The unguarded divide emitted by `SpadeCode.add_block`
(src/generating/spade.py lines 204-205). -/
def spadeDivideStmts (arg1 : String) (arg2 : PyExpr) : List ActStmt :=
  [.divAssign arg1 arg2]

/-! ### Runtime semantics of the emitted subset instruction

`PythonSpadeCode.add_block` translates `Subset` (python_spade.py lines
403-414) into
`if round(num) > 0: to = [copy.deepcopy(elem) for elem in random.sample(src, min(round(num), len(src)))]`
`else: to = []`.
List elements are Python objects; the embedding works over a heap of their
values, a list being a list of references. -/

/-- The run of the emitted subset translation: the heap after the deep copies
and the reference list assigned to the destination. -/
def subsetRun {α : Type} (sampler : List ℕ → ℕ → List ℕ) (h : Heap α) (d : α)
    (src : List ℕ) (num : ℚ) : Heap α × List ℕ :=
  if 0 < pythonRound num then
    let k := (min (pythonRound num) (src.length : ℤ)).toNat
    let picked := sampler src k
    h.allocList (picked.map (fun r => h.get r d))
  else (h, [])

/-! ### Object-identity model of the message dictionary

`State.add_message` stores the parsed message object in
`self.messages[(type, performative)]`; `State.get_message_instance` returns
`deepcopy(self.messages[(type, performative)])` (state.py lines 67-68 and
82-83).  To express the deep-copy claim the dictionary is modelled with
explicit object identity: it maps keys to references into a heap of message
data. -/

/-- The default for dereferencing (claims only dereference valid refs). -/
def defaultMessage : Message :=
  { type := "", performative := "", floatParams := [] }

/-- The `messages` field of the parser state, with object identity. -/
structure MessagesState where
  heap : Heap Message
  messages : List ((String × String) × ℕ)
deriving DecidableEq, Repr

/-- `State.add_message` with object identity: allocate the parsed message
object, store its reference under `(type, performative)`. -/
def MessagesState.addMessage (s : MessagesState) (m : Message) : MessagesState :=
  let a := s.heap.alloc m
  { heap := a.1, messages := dictInsert s.messages (m.type, m.performative) a.2 }

/-- `State.get_message_instance` with object identity: look the template up
and return a `deepcopy` — a freshly allocated object holding the same
data. -/
def MessagesState.getMessageInstance (s : MessagesState) (ty perf : String) :
    Option (MessagesState × ℕ) :=
  match dictGet? s.messages (ty, perf) with
  | none => none
  | some r =>
    let a := s.heap.alloc (s.heap.get r defaultMessage)
    some ({ s with heap := a.1 }, a.2)

/-- Mutate, through a returned reference, the message object it refers to. -/
def MessagesState.mutate (s : MessagesState) (r : ℕ) (v : Message) : MessagesState :=
  { s with heap := s.heap.set r v }

/-! ### Concrete instances used by witnesses and counterexamples -/

/-- A per-opcode handler that accepts every line unchanged (the dispatch
handlers are not among the sources; the empty program runs none of them). -/
def trivialOpHandler : State → List String → Except PyError State :=
  fun s _ => .ok s

/-- A per-agent emitter that emits nothing (never invoked on the inputs it is
used for). -/
def trivialAgentEmitter : Emitter → AgentIR → Emitter :=
  fun e _ => e

/-- A preprocessor that passes lines through unchanged (the empty program has
no directives to resolve). -/
def identityPreprocessor : List String → List String × (ℕ → ℕ × String) :=
  fun l => (l, fun _ => (0, ""))

/-- The matrix graph of the spec's own test vector: two types `A`, `B`,
adjacency rows `[0,1]` and `[1,0]`, no scale declared. -/
def bugMatrixGraph : MatrixGraph :=
  { agents := [{ name := "A", adjRow := { row := [0, 1] } },
               { name := "B", adjRow := { row := [1, 0] } }]
    scale := none }

/-! ### Helper lemmas -/

/-- Looking up the key just inserted returns the inserted value, whether the
key was overwritten or appended. -/
theorem dictGet?_dictInsert_self {κ α : Type} [DecidableEq κ] (d : List (κ × α))
    (k : κ) (v : α) : dictGet? (dictInsert d k v) k = some v := by
  rw [dictInsert]
  by_cases h : d.any (fun p => p.1 = k)
  · rw [if_pos h]
    induction d with
    | nil => simp at h
    | cons p rest ih =>
      by_cases hp : p.1 = k
      · simp [dictGet?, List.find?, hp]
      · rw [List.map_cons, if_neg hp, dictGet?,
          List.find?_cons_of_neg _ (by simpa using hp)]
        rw [dictGet?] at ih
        exact ih (by simpa [List.any_cons, hp] using h)
  · rw [if_neg h]
    rw [dictGet?, List.find?_append,
      List.find?_eq_none.2 (fun x hx => by
        simpa using (List.any_eq_false.1 (Bool.eq_false_iff.2 h)) x hx)]
    simp [List.find?]

/-- Taking the first `k` pool elements is a valid model of `random.sample`. -/
theorem validSampler_take : ValidSampler takeSampler := by
  intro pool k hk
  refine ⟨by simp [takeSampler, hk], fun x hx => List.take_subset k pool hx,
    fun hnd => hnd.sublist (List.take_sublist k pool)⟩

/-- After inserting key `k`, the dictionary contains an entry for `k`. -/
theorem dictInsert_any_self {κ α : Type} [DecidableEq κ] (d : List (κ × α))
    (k : κ) (v : α) : (dictInsert d k v).any (fun p => p.1 = k) = true := by
  rw [dictInsert]
  by_cases h : d.any (fun p => p.1 = k)
  · rw [if_pos h]
    obtain ⟨p, hp, hpk⟩ := List.any_eq_true.1 h
    exact List.any_eq_true.2 ⟨(k, v), List.mem_map.2 ⟨p, hp, by
      simp only [of_decide_eq_true hpk, if_pos]⟩, by simp⟩
  · rw [if_neg h]
    exact List.any_eq_true.2 ⟨(k, v), by simp, by simp⟩

/-- Inserting an already-present key overwrites in place: the dictionary does
not grow. -/
theorem length_dictInsert_of_present {κ α : Type} [DecidableEq κ]
    (d : List (κ × α)) (k : κ) (v : α) (h : d.any (fun p => p.1 = k) = true) :
    (dictInsert d k v).length = d.length := by
  rw [dictInsert, if_pos h, List.length_map]

/-- Every element of a successful `mapOrNone` run comes from a successful
application of `f` to a list element. -/
theorem mapOrNone_mem {α β : Type} (f : α → Option β) (xs : List α) (ys : List β)
    (h : mapOrNone f xs = some ys) : ∀ y ∈ ys, ∃ x ∈ xs, f x = some y := by
  induction xs generalizing ys with
  | nil =>
    rw [mapOrNone] at h
    cases h
    simp
  | cons x xs ih =>
    rw [mapOrNone] at h
    cases hf : f x with
    | none => rw [hf] at h; simp at h
    | some y0 =>
      cases hrest : mapOrNone f xs with
      | none => rw [hf, hrest] at h; simp at h
      | some ys0 =>
        rw [hf, hrest] at h
        cases h
        intro y hy
        rcases List.mem_cons.1 hy with rfl | hy
        · exact ⟨x, List.mem_cons_self x xs, hf⟩
        · obtain ⟨x', hx', hfx'⟩ := ih ys0 hrest y hy
          exact ⟨x', List.mem_cons_of_mem x hx', hfx'⟩

/-- `getD` at the length of the left part of an append hits the head of the
right part. -/
theorem getD_append_self {α : Type} (l t : List α) (x d : α) :
    (l ++ x :: t).getD l.length d = x := by
  induction l with
  | nil => rfl
  | cons a l ih => simpa using ih

/-- `getD` below the length of the left part of an append stays in the left
part. -/
theorem getD_append_left {α : Type} (l l' : List α) (r : ℕ) (hr : r < l.length)
    (d : α) : (l ++ l').getD r d = l.getD r d := by
  induction l generalizing r with
  | nil => simp at hr
  | cons a l ih =>
    cases r with
    | zero => rfl
    | succ r => simpa using ih r (by simpa using hr)

/-- `set` at one index leaves `getD` at any other index unchanged. -/
theorem getD_set_ne {α : Type} (l : List α) (i j : ℕ) (v d : α) (hne : i ≠ j) :
    (l.set i v).getD j d = l.getD j d := by
  induction l generalizing i j with
  | nil => rfl
  | cons a l ih =>
    cases i with
    | zero =>
      cases j with
      | zero => exact absurd rfl hne
      | succ j => rfl
    | succ i =>
      cases j with
      | zero => rfl
      | succ j => simpa using ih i j (fun h => hne (by rw [h]))

/-- Reading the freshly allocated cells back, in order, returns the allocated
values. -/
theorem map_getD_append {α : Type} (cells vs : List α) (d : α) :
    (List.range' cells.length vs.length).map (fun r => (cells ++ vs).getD r d) = vs := by
  induction vs generalizing cells with
  | nil => simp
  | cons v vs ih =>
    rw [List.length_cons, List.range'_succ, List.map_cons, getD_append_self]
    have hstep := ih (cells ++ [v])
    simp only [List.length_append, List.length_singleton] at hstep
    rw [show cells ++ v :: vs = (cells ++ [v]) ++ vs by simp]
    exact congrArg (v :: ·) hstep

/-! ### Claims -/

/-- C2: at end of input, a still-open AGENT context fails with the positioned
diagnostic "Missing EAGENT"; failing that, a still-open MESSAGE context
fails with "Missing EMESSAGE"; failing that, a still-open GRAPH context
fails with "Missing EGRAPH"; and when every context has been closed the
end-of-input check passes and `get_parsed_data` returns the accumulated
agents, messages and graph. -/
theorem C2_end_state_check (s : State) :
    (s.inAgent = true →
      s.getParsedData = .error (.panicExc s.panicPlace "Missing EAGENT" "")) ∧
    (s.inAgent = false → s.inMessage = true →
      s.getParsedData = .error (.panicExc s.panicPlace "Missing EMESSAGE" "")) ∧
    (s.inAgent = false → s.inMessage = false → s.inGraph = true →
      s.getParsedData = .error (.panicExc s.panicPlace "Missing EGRAPH" "")) ∧
    (s.inAgent = false → s.inMessage = false → s.inGraph = false →
      s.verifyEndState = .ok () ∧
      s.getParsedData = .ok { agents := s.agents.map Prod.snd
                              messages := s.messages.map Prod.snd
                              graph := s.graph }) := by
  refine ⟨fun h1 => ?_, fun h1 h2 => ?_, fun h1 h2 h3 => ?_, fun h1 h2 h3 => ?_⟩
  · simp [State.getParsedData, State.verifyEndState, State.panic, h1]
  · simp [State.getParsedData, State.verifyEndState, State.panic, h1, h2]
  · simp [State.getParsedData, State.verifyEndState, State.panic, h1, h2, h3]
  · simp [State.getParsedData, State.verifyEndState, h1, h2, h3]

/-- C2 witness: a state that ends input inside an AGENT context panics with
"Missing EAGENT"; the pristine state passes the check and yields empty
parsed data. -/
theorem C2_end_state_check_witness :
    ({ initialState [] (fun _ => (0, "")) with inAgent := true } : State).getParsedData =
      .error (.panicExc
        ({ initialState [] (fun _ => (0, "")) with inAgent := true } : State).panicPlace
        "Missing EAGENT" "") ∧
    (initialState [] (fun _ => (0, ""))).getParsedData =
      .ok { agents := [], messages := [], graph := none } :=
  ⟨(C2_end_state_check _).1 rfl,
   ((C2_end_state_check (initialState [] (fun _ => (0, "")))).2.2.2 rfl rfl rfl).2⟩

/-- C10: when no graph has been declared, `last_graph` raises the generic
`Exception("Graph is not defined")` — not the positioned-diagnostic
`PanicException` — and after `add_graph` it returns the added graph
unchanged. -/
theorem C10_last_graph (s : State) :
    (s.graph = none →
      s.lastGraph = .error (.genericExc "Graph is not defined") ∧
      ∀ place reason suggestion,
        s.lastGraph ≠ .error (.panicExc place reason suggestion)) ∧
    (∀ g, (s.addGraph g).lastGraph = .ok g) := by
  constructor
  · intro h
    constructor
    · simp [State.lastGraph, h]
    · intro place reason suggestion hcontra
      simp [State.lastGraph, h] at hcontra
  · intro g
    simp [State.addGraph, State.lastGraph]

/-- C10 witness: the pristine state has no graph and `last_graph` fails with
the generic exception; after adding a graph it is returned unchanged. -/
theorem C10_last_graph_witness :
    (initialState [] (fun _ => (0, ""))).lastGraph =
      .error (.genericExc "Graph is not defined") ∧
    ((initialState [] (fun _ => (0, ""))).addGraph (.matrix bugMatrixGraph)).lastGraph =
      .ok (.matrix bugMatrixGraph) :=
  ⟨((C10_last_graph _).1 rfl).1, (C10_last_graph _).2 _⟩

/-- C1 counterexample: the claim quantifies over the emitted code of both
generators, but `SpadeCode.add_block` (src/generating/spade.py lines
204-205) emits the bare `{arg1} /= {arg2}` with no guard: with the divisor
evaluating to 0 the run raises `ZeroDivisionError` instead of returning
from the action with the store untouched. -/
theorem C1_divide_cex :
    runActStmts (fun _ => (0 : ℚ)) (spadeDivideStmts "x" (PyExpr.var "y")) =
      ActOutcome.zeroDivError ∧
    runActStmts (fun _ => (0 : ℚ)) (spadeDivideStmts "x" (PyExpr.var "y")) ≠
      ActOutcome.earlyReturn (fun _ => (0 : ℚ)) := by
  refine ⟨rfl, fun h => ?_⟩
  exact ActOutcome.noConfusion h

/-- C1 (amended): the guarded translation of `divide` emitted by
`PythonSpadeCode.add_block` returns from the enclosing action with the
store untouched when the divisor evaluates to 0, and performs the
floating-point division and assignment when it is nonzero; the legacy
`SpadeCode.add_block` translation is unguarded and raises
`ZeroDivisionError` on a zero divisor. -/
theorem C1_divide_guard (σ : String → ℚ) (x : String) (e : PyExpr) :
    (evalExpr σ e = 0 →
      runActStmts σ (pythonSpadeDivideStmts x e) = ActOutcome.earlyReturn σ) ∧
    (evalExpr σ e ≠ 0 →
      runActStmts σ (pythonSpadeDivideStmts x e) =
        ActOutcome.normal (updateVar σ x (σ x / evalExpr σ e))) ∧
    (evalExpr σ e = 0 →
      runActStmts σ (spadeDivideStmts x e) = ActOutcome.zeroDivError) := by
  refine ⟨fun h => ?_, fun h => ?_, fun h => ?_⟩ <;>
    simp [pythonSpadeDivideStmts, spadeDivideStmts, runActStmts, h]

/-- C1 witness: the guarded divide at divisor literal 0 returns early leaving
the store alone; at divisor literal 2 it divides and assigns; the unguarded
divide at divisor literal 0 raises. -/
theorem C1_divide_guard_witness :
    runActStmts (fun _ => (1 : ℚ)) (pythonSpadeDivideStmts "x" (PyExpr.lit 0)) =
      ActOutcome.earlyReturn (fun _ => (1 : ℚ)) ∧
    runActStmts (fun _ => (1 : ℚ)) (pythonSpadeDivideStmts "x" (PyExpr.lit 2)) =
      ActOutcome.normal (updateVar (fun _ => (1 : ℚ)) "x" ((1 : ℚ) / 2)) ∧
    runActStmts (fun _ => (1 : ℚ)) (spadeDivideStmts "x" (PyExpr.lit 0)) =
      ActOutcome.zeroDivError :=
  ⟨(C1_divide_guard (fun _ => 1) "x" (.lit 0)).1 rfl,
   (C1_divide_guard (fun _ => 1) "x" (.lit 2)).2.1 (by decide),
   (C1_divide_guard (fun _ => 1) "x" (.lit 0)).2.2 rfl⟩

/-- C5: evaluation at the failing input.  For the matrix graph with two types
`A` (row `[0,1]`) and `B` (row `[1,0]`), every emitted record carries the
type name `"B"` — the compile-time value of the leaked loop variable
`agent` on python_graph.py line 169 — although the record at base index 0
is the instance of the declared type `"A"`. -/
theorem C5_matrix_type_bug :
    (matrixGenerate bugMatrixGraph).map GraphRecord.type = ["B", "B"] ∧
    matrixEmittedTypeName bugMatrixGraph = "B" ∧
    (bugMatrixGraph.agents.getD 0 defaultMatrixAgent).name = "A" ∧
    (matrixGenerate bugMatrixGraph).getD 0 { jid := 0, type := "", connections := [] } =
      { jid := 0, type := "B", connections := [1] } := by
  decide

/-- C6 counterexample: generating code from the empty program yields an empty
graph section — it does not contain a `generate_graph_structure` function
(none is emitted when no graph was declared). -/
theorem C6_empty_program_cex :
    ¬ ∃ c : Code,
        getSpadeCode trivialOpHandler trivialAgentEmitter identityPreprocessor [] 4 =
          Except.ok c ∧
        "def generate_graph_structure(domain):\n" ∈ c.graphCode := by
  rintro ⟨c, hc, hm⟩
  have h0 : getSpadeCode trivialOpHandler trivialAgentEmitter identityPreprocessor [] 4 =
      Except.ok { spadeCode := [], graphCode := [] } := rfl
  rw [h0] at hc
  cases hc
  simp at hm

/-- C6 (amended): generating code from the empty program succeeds without
error; both sections of the output pair are empty — in particular the graph
section contains no `generate_graph_structure` function (one is emitted
only when a graph construct was declared). -/
theorem C6_empty_program (step : State → List String → Except PyError State)
    (genAgent : Emitter → AgentIR → Emitter)
    (preprocess : List String → List String × (ℕ → ℕ × String))
    (hpre : (preprocess []).1 = []) :
    getSpadeCode step genAgent preprocess [] 4 =
      .ok { spadeCode := [], graphCode := [] } := by
  simp [getSpadeCode, parseLines, tokenLines, hpre, runParse, initialState,
    State.getParsedData, State.verifyEndState, pythonSpadeCodeLines,
    pythonGraphCodeLines]

/-- C6 witness: the amended statement at the concrete trivial handler,
emitter and preprocessor. -/
theorem C6_empty_program_witness :
    getSpadeCode trivialOpHandler trivialAgentEmitter identityPreprocessor [] 4 =
      .ok { spadeCode := [], graphCode := [] } :=
  C6_empty_program trivialOpHandler trivialAgentEmitter identityPreprocessor rfl

/-- C4: for a matrix graph with at least one agent type, the scale factor
defaults to 1 when unspecified, the generated population is exactly
`S * N` records, and within each shard `s` the instance of type `i` is
connected to shard `s`'s instance of every type `j` whose entry in type
`i`'s adjacency row is 1 (the modular wrap-around being the identity on
these in-range indices). -/
theorem C4_matrix_replication (g : MatrixGraph) (hne : g.agents ≠ []) :
    (g.scale = none → matrixScaleFactor g = 1) ∧
    (matrixGenerate g).length = (matrixScaleFactor g).toNat * g.agents.length ∧
    (∀ base shift j,
      base < g.agents.length → shift < (matrixScaleFactor g).toNat →
      j < g.agents.length →
      (g.agents.getD base defaultMatrixAgent).adjRow.row.length = g.agents.length →
      (g.agents.getD base defaultMatrixAgent).adjRow.row.getD j 0 = 1 →
      ∃ r ∈ matrixGenerate g,
        r.jid = base + shift * g.agents.length ∧
        (j + shift * g.agents.length) ∈ r.connections) := by
  have hempty : g.agents.isEmpty = false := by
    simpa [List.isEmpty_iff] using hne
  refine ⟨fun h => by simp [matrixScaleFactor, h], ?_, ?_⟩
  · rw [matrixGenerate, if_neg (by simp [hempty])]
    rw [List.length_flatMap]
    simp only [Function.comp_def, List.length_map, List.length_range]
    rw [List.map_const']
    simp [List.sum_replicate, smul_eq_mul, mul_comm]
  · intro base shift j hb hs hj hlen hrow
    refine ⟨{ jid := base + shift * g.agents.length
              type := matrixEmittedTypeName g
              connections := (matrixIndicesForBase g base).map
                (fun i => (i + shift * g.agents.length) %
                  ((matrixScaleFactor g).toNat * g.agents.length)) }, ?_, rfl, ?_⟩
    · rw [matrixGenerate, if_neg (by simp [hempty])]
      refine List.mem_flatMap.2 ⟨base, List.mem_range.2 hb, ?_⟩
      exact List.mem_map.2 ⟨shift, List.mem_range.2 hs, rfl⟩
    · have hjmem : j ∈ matrixIndicesForBase g base := by
        rw [matrixIndicesForBase]
        refine List.mem_append_left _ ?_
        rw [adjIndices]
        refine List.mem_filter.2 ⟨List.mem_range.2 (hlen ▸ hj), by simpa using hrow⟩
      have hlt : j + shift * g.agents.length <
          (matrixScaleFactor g).toNat * g.agents.length := by
        calc j + shift * g.agents.length
            < g.agents.length + shift * g.agents.length := by omega
          _ = (shift + 1) * g.agents.length := by ring
          _ ≤ (matrixScaleFactor g).toNat * g.agents.length :=
            Nat.mul_le_mul_right _ (by omega)
      refine List.mem_map.2 ⟨j, hjmem, ?_⟩
      rw [Nat.mod_eq_of_lt hlt]

/-- C4 witness: the spec's test vector — two types with rows `[0,1]` and
`[1,0]`, scale 2 — yields population 4; instance 0 of shard 0 connects to
instance 1 of shard 0, and instance 0 of shard 1 (jid 2) connects to
instance 1 of shard 1 (jid 3). -/
theorem C4_matrix_replication_witness :
    (matrixGenerate { agents := bugMatrixGraph.agents, scale := some 2 }).length = 2 * 2 ∧
    (∃ r ∈ matrixGenerate { agents := bugMatrixGraph.agents, scale := some 2 },
      r.jid = 0 + 0 * 2 ∧ (1 + 0 * 2) ∈ r.connections) ∧
    (∃ r ∈ matrixGenerate { agents := bugMatrixGraph.agents, scale := some 2 },
      r.jid = 0 + 1 * 2 ∧ (1 + 1 * 2) ∈ r.connections) := by
  have h := C4_matrix_replication { agents := bugMatrixGraph.agents, scale := some 2 }
    (by decide)
  exact ⟨h.2.1, h.2.2 0 0 1 (by decide) (by decide) (by decide) (by decide) (by decide),
    h.2.2 0 1 1 (by decide) (by decide) (by decide) (by decide) (by decide)⟩

/-- C8: in the emitted statistical-graph code, each type's instance count is
its absolute constant or `round(percentage / 100 * size)`; the population
used for identifier generation (the length of `jids`) equals the sum of the
per-type counts; for the spec's `{A: 60%, B: 40%}` at size 10 the counts
are 6 and 4; the policy is rounding, not truncation (`round(5.5) = 6`). -/
theorem C8_statistical_counts (g : StatisticalGraph)
    (hpos : ∀ a ∈ g.agents, 0 ≤ numFor g.size a) :
    (∀ a ∈ g.agents,
      (∀ v, a.amount = .constant v → numFor g.size a = v) ∧
      (∀ p, a.amount = .percent p →
        numFor g.size a = pythonRound (p / 100 * g.size))) ∧
    ((statJids g).length : ℤ) = (g.agents.map (numFor g.size)).sum ∧
    numFor 10 { name := "A", amount := .percent 60, connections := .constant 0 } = 6 ∧
    numFor 10 { name := "B", amount := .percent 40, connections := .constant 0 } = 4 ∧
    pythonRound ((55 : ℚ) / 100 * 10) = 6 := by
  refine ⟨?_, ?_, ?_, ?_, ?_⟩
  · intro a _
    exact ⟨fun v hv => by simp [numFor, hv], fun p hp => by simp [numFor, hp]⟩
  · rw [statJids, List.length_range, numAgents,
      Int.toNat_of_nonneg (List.sum_nonneg (by simpa using hpos))]
  · have h60 : (60 : ℚ) / 100 * 10 = 6 := by norm_num
    simp only [numFor, h60]
    decide
  · have h40 : (40 : ℚ) / 100 * 10 = 4 := by norm_num
    simp only [numFor, h40]
    decide
  · have h55 : (55 : ℚ) / 100 * 10 = Rat.divInt 11 2 := by
      rw [Rat.divInt_eq_div]; norm_num
    rw [h55]
    decide

/-- C8 witness: a graph of two constant-count types (6 and 4) at size 10,
whose identifier population is their sum. -/
theorem C8_statistical_counts_witness :
    ((statJids { agents := [{ name := "A", amount := .constant 6, connections := .constant 0 },
                            { name := "B", amount := .constant 4, connections := .constant 0 }]
                 size := 10 }).length : ℤ) =
      (({ agents := [{ name := "A", amount := .constant 6, connections := .constant 0 },
                     { name := "B", amount := .constant 4, connections := .constant 0 }]
          size := 10 } : StatisticalGraph).agents.map (numFor 10)).sum ∧
    pythonRound ((55 : ℚ) / 100 * 10) = 6 := by
  have h := C8_statistical_counts
    { agents := [{ name := "A", amount := .constant 6, connections := .constant 0 },
                 { name := "B", amount := .constant 4, connections := .constant 0 }]
      size := 10 }
    (by decide)
  exact ⟨h.2.1, h.2.2.2.2⟩

/-- C9: adding two messages with the same (type, performative) key overwrites
the first; `get_message_instance` on that key then returns data equal to the
last-added message, and the returned object is a fresh deep copy: mutating
it through its reference leaves the stored template unchanged, so a later
lookup still returns the last-added data. -/
theorem C9_message_overwrite_deepcopy (s : MessagesState) (m1 m2 : Message)
    (hty : m2.type = m1.type) (hperf : m2.performative = m1.performative) :
    ((((s.addMessage m1).addMessage m2).getMessageInstance m2.type m2.performative).map
        (fun q => q.1.heap.get q.2 defaultMessage) = some m2) ∧
    (∀ p : MessagesState × ℕ,
      ((s.addMessage m1).addMessage m2).getMessageInstance m2.type m2.performative =
        some p →
      p.1.heap.get p.2 defaultMessage = m2 ∧
      ∀ v, (((p.1.mutate p.2 v).getMessageInstance m2.type m2.performative).map
          (fun q => q.1.heap.get q.2 defaultMessage)) = some m2) ∧
    ((s.addMessage m1).addMessage m2).messages.length =
      (s.addMessage m1).messages.length := by
  refine ⟨?_, ?_, ?_⟩
  rotate_right
  · simp only [MessagesState.addMessage, Heap.alloc]
    rw [hty, hperf]
    exact length_dictInsert_of_present _ _ _ (dictInsert_any_self _ _ _)
  · simp only [MessagesState.addMessage, Heap.alloc, MessagesState.getMessageInstance,
      dictGet?_dictInsert_self, Heap.get, getD_append_self, Option.map_some']
  · intro p hp
    simp only [MessagesState.addMessage, Heap.alloc, MessagesState.getMessageInstance,
      dictGet?_dictInsert_self, Heap.get, getD_append_self] at hp
    injection hp with hp
    subst hp
    constructor
    · simp only [Heap.get, getD_append_self]
    · intro v
      simp only [MessagesState.mutate, Heap.set, Heap.get,
        MessagesState.getMessageInstance, dictGet?_dictInsert_self, Heap.alloc,
        Option.map_some']
      have hne : ((s.heap.cells ++ [m1]) ++ [m2]).length ≠
          (s.heap.cells ++ [m1]).length := by simp
      rw [getD_set_ne _ _ _ _ _ hne]
      have hleft : (((s.heap.cells ++ [m1]) ++ [m2]) ++ [m2]).getD
          (s.heap.cells ++ [m1]).length defaultMessage =
          ((s.heap.cells ++ [m1]) ++ [m2]).getD
            (s.heap.cells ++ [m1]).length defaultMessage :=
        getD_append_left _ _ _ (by simp) _
      rw [hleft, getD_append_self]
      rw [getD_append_self]

/-- C9 witness: two messages, both keyed `("t", "p")`; the instance returned
after both insertions carries the second message's data, and mutating the
copy (reference 2) keeps a later lookup returning the second message's
data. -/
theorem C9_message_overwrite_deepcopy_witness :
    ((((( ⟨⟨[]⟩, []⟩ : MessagesState).addMessage
        { type := "t", performative := "p", floatParams := ["a"] }).addMessage
        { type := "t", performative := "p", floatParams := ["b"] }).getMessageInstance
        "t" "p").map (fun q => q.1.heap.get q.2 defaultMessage)) =
      some { type := "t", performative := "p", floatParams := ["b"] } ∧
    ((({ heap := ⟨[{ type := "t", performative := "p", floatParams := ["a"] },
                   { type := "t", performative := "p", floatParams := ["b"] },
                   { type := "t", performative := "p", floatParams := ["b"] }]⟩
         messages := [(("t", "p"), 1)] } : MessagesState).mutate 2
        { type := "x", performative := "y", floatParams := [] }).getMessageInstance
        "t" "p").map (fun q => q.1.heap.get q.2 defaultMessage) =
      some { type := "t", performative := "p", floatParams := ["b"] } := by
  have h := C9_message_overwrite_deepcopy ⟨⟨[]⟩, []⟩
    { type := "t", performative := "p", floatParams := ["a"] }
    { type := "t", performative := "p", floatParams := ["b"] } rfl rfl
  refine ⟨h.1, ?_⟩
  have h2 := (h.2.1 ({ heap := ⟨[{ type := "t", performative := "p", floatParams := ["a"] },
                                 { type := "t", performative := "p", floatParams := ["b"] },
                                 { type := "t", performative := "p", floatParams := ["b"] }]⟩,
                       messages := [(("t", "p"), 1)] }, 2) (by decide)).2
    { type := "x", performative := "y", floatParams := [] }
  exact h2

/-- C3: in the emitted statistical-graph code, the clamp
`max(min(nc, len(jids) - 1), 0)` lands in `[0, population - 1]` for every
drawn value whenever the population is at least 1; and in every generated
record the peer list is duplicate-free, excludes the record's own
identifier, draws only from the generated identifiers, and has at most
`population - 1` entries. -/
theorem C3_statistical_sampling (g : StatisticalGraph)
    (sampler : List ℕ → ℕ → List ℕ) (draws : ℕ → ℤ) (records : List GraphRecord)
    (hvalid : ValidSampler sampler)
    (hgen : statGenerate sampler draws g = some records) :
    (∀ (nc : ℤ) (len : ℕ), 1 ≤ len →
      0 ≤ clampConnections nc len ∧ clampConnections nc len ≤ (len : ℤ) - 1) ∧
    (∀ r ∈ records,
      r.connections.Nodup ∧
      r.jid ∉ r.connections ∧
      (∀ x ∈ r.connections, x ∈ statJids g) ∧
      r.connections.length ≤ (statJids g).length - 1) := by
  constructor
  · intro nc len hlen
    rw [clampConnections]
    omega
  · intro r hr
    by_cases hempty : g.agents.isEmpty
    · rw [statGenerate, if_pos hempty] at hgen
      cases hgen
      simp at hr
    · rw [statGenerate, if_neg hempty] at hgen
      obtain ⟨⟨idx, a⟩, _, hinst⟩ := mapOrNone_mem _ _ _ hgen r hr
      simp only [statInstance] at hinst
      cases hjid : (statJids g).get? idx with
      | none => rw [hjid] at hinst; simp at hinst
      | some jid =>
        rw [hjid] at hinst
        simp only [Option.some.injEq] at hinst
        subst hinst
        have hjmem : jid ∈ statJids g := List.get?_mem hjid
        have hpop : 0 < (statJids g).length := List.length_pos_of_mem hjmem
        have hnodup : (statJids g).Nodup := by rw [statJids]; exact List.nodup_range _
        have hperm : List.Perm (statJids g) (jid :: (statJids g).erase jid) :=
          List.perm_cons_erase hjmem
        have hfilter : ((statJids g).filter (fun o => o ≠ jid)).length =
            (statJids g).length - 1 := by
          have h1 := (hperm.filter (fun o => o ≠ jid)).length_eq
          have h2 : (jid :: (statJids g).erase jid).filter (fun o => o ≠ jid) =
              (statJids g).erase jid := by
            rw [List.filter_cons]
            simp only [ne_eq, not_true_eq_false, decide_False, Bool.false_eq_true,
              if_false]
            rw [List.filter_eq_self]
            intro x hx
            have hxne : x ≠ jid := ((List.Nodup.mem_erase_iff hnodup).1 hx).1
            simpa using hxne
          rw [h1, h2, List.length_erase_of_mem hjmem]
        have hkle :
            (clampConnections (drawnConnections (draws idx) a.connections)
              (statJids g).length).toNat ≤
            ((statJids g).filter (fun o => o ≠ jid)).length := by
          rw [hfilter, clampConnections]
          omega
        obtain ⟨hslen, hsmem, hsnodup⟩ := hvalid _ _ hkle
        have hpoolnodup : ((statJids g).filter (fun o => o ≠ jid)).Nodup :=
          hnodup.filter _
        refine ⟨hsnodup hpoolnodup, ?_, ?_, ?_⟩
        · intro hcontra
          have hmem' := List.mem_filter.1 (hsmem _ hcontra)
          simp at hmem'
        · intro x hx
          exact (List.mem_filter.1 (hsmem x hx)).1
        · rw [hslen] at *
          omega

/-- C3 witness: one type of two instances with constant connection count 5;
both generated records have a singleton peer list not containing the own
identifier, and the clamp of a draw of 7 against population 3 lies in
`[0, 2]`. -/
theorem C3_statistical_sampling_witness :
    (0 ≤ clampConnections 7 3 ∧ clampConnections 7 3 ≤ (3 : ℤ) - 1) ∧
    (([1] : List ℕ).Nodup ∧
      (0 : ℕ) ∉ ([1] : List ℕ) ∧
      (∀ x ∈ ([1] : List ℕ),
        x ∈ statJids { agents := [{ name := "A", amount := .constant 2,
                                    connections := .constant 5 }], size := 0 }) ∧
      ([1] : List ℕ).length ≤
        (statJids { agents := [{ name := "A", amount := .constant 2,
                                 connections := .constant 5 }], size := 0 }).length - 1) := by
  have h := C3_statistical_sampling
    { agents := [{ name := "A", amount := .constant 2, connections := .constant 5 }]
      size := 0 }
    takeSampler (fun _ => 5)
    [{ jid := 0, type := "A", connections := [1] },
     { jid := 1, type := "A", connections := [0] }]
    validSampler_take (by decide)
  exact ⟨h.1 7 3 (by decide),
    h.2 { jid := 0, type := "A", connections := [1] } (by decide)⟩

/-- C7: the emitted subset translation assigns the empty list when
`round(num) ≤ 0`; otherwise it assigns deep copies of a sample of exactly
`min(round(num), len(src))` source elements: the resulting references are
to fresh objects holding the sampled elements' data, none of them is a
source reference, and mutating any of them leaves every source element's
data unchanged. -/
theorem C7_subset_deepcopy (α : Type) (sampler : List ℕ → ℕ → List ℕ)
    (h : Heap α) (d : α) (src : List ℕ) (num : ℚ)
    (hvalid : ValidSampler sampler)
    (hsrc : ∀ r ∈ src, r < h.cells.length) :
    (pythonRound num ≤ 0 → subsetRun sampler h d src num = (h, [])) ∧
    (0 < pythonRound num →
      (subsetRun sampler h d src num).2.length =
        min (pythonRound num).toNat src.length ∧
      (subsetRun sampler h d src num).2.map
          (fun r => (subsetRun sampler h d src num).1.get r d) =
        (sampler src (min (pythonRound num) (src.length : ℤ)).toNat).map
          (fun r => h.get r d) ∧
      (∀ r ∈ (subsetRun sampler h d src num).2, r ∉ src) ∧
      (∀ r ∈ (subsetRun sampler h d src num).2, ∀ v, ∀ q ∈ src,
        ((subsetRun sampler h d src num).1.set r v).get q d = h.get q d)) := by
  constructor
  · intro hle
    rw [subsetRun, if_neg (by omega)]
  · intro hpos
    have hrun : subsetRun sampler h d src num =
        (⟨h.cells ++ ((sampler src (min (pythonRound num) (src.length : ℤ)).toNat).map
            (fun r => h.get r d))⟩,
         List.range' h.cells.length
           ((sampler src (min (pythonRound num) (src.length : ℤ)).toNat).map
             (fun r => h.get r d)).length) := by
      rw [subsetRun, if_pos hpos]
      rfl
    have hkle : (min (pythonRound num) (src.length : ℤ)).toNat ≤ src.length := by
      omega
    obtain ⟨hslen, hsmem, -⟩ := hvalid src _ hkle
    refine ⟨?_, ?_, ?_, ?_⟩
    · rw [hrun]
      simp only [List.length_range', List.length_map]
      rw [hslen]
      omega
    · rw [hrun]
      simp only [Heap.get]
      exact map_getD_append h.cells _ d
    · intro r hr
      rw [hrun] at hr
      have hge : h.cells.length ≤ r := (List.mem_range'_1.1 hr).1
      intro hcontra
      exact absurd (hsrc r hcontra) (by omega)
    · intro r hr v q hq
      rw [hrun] at hr ⊢
      have hge : h.cells.length ≤ r := (List.mem_range'_1.1 hr).1
      have hqlt : q < h.cells.length := hsrc q hq
      simp only [Heap.set, Heap.get]
      rw [getD_set_ne _ _ _ _ _ (by omega)]
      exact getD_append_left _ _ _ hqlt _

/-- C7 witness: over the three-cell heap `[10, 20, 30]` with source references
`[0, 1, 2]`, requesting 2 elements yields a destination of length
`min(round(2), 3) = 2`, and requesting 0 elements leaves the heap unchanged
and assigns the empty list. -/
theorem C7_subset_deepcopy_witness :
    (subsetRun takeSampler (⟨[10, 20, 30]⟩ : Heap ℕ) 0 [0, 1, 2] 2).2.length =
      min (pythonRound 2).toNat ([0, 1, 2] : List ℕ).length ∧
    subsetRun takeSampler (⟨[10, 20, 30]⟩ : Heap ℕ) 0 [0, 1, 2] 0 =
      (⟨[10, 20, 30]⟩, []) := by
  have h2 := C7_subset_deepcopy ℕ takeSampler ⟨[10, 20, 30]⟩ 0 [0, 1, 2] 2
    validSampler_take (by decide)
  have h0 := C7_subset_deepcopy ℕ takeSampler ⟨[10, 20, 30]⟩ 0 [0, 1, 2] 0
    validSampler_take (by decide)
  exact ⟨(h2.2 (by decide)).1, h0.1 (by decide)⟩

end AASM
